import Mathlib

/-!
Shallow embedding of the `lite_led` driver (src/src/lite_led.c, src/inc/lite_led.h,
src/inc/lite_led_cfg.h) and proofs about it.

Modelling conventions:
* Machine integers (`uint8_t`, `uint32_t`, `size_t`) are modelled as `Nat`; all
  values the driver actually stores stay far below the wrap points, and the one
  sentinel (`LED_BLOCK_FOREVER = 0xFFFFFFFF`) is kept as a concrete `Nat`.
* The C `float` fields `phase` and `phase_step` hold only multiples of pi
  (pi, 2*pi, pi*100/fade_ms, sums of these).  They are modelled exactly as
  rational numbers in units of pi: the stored rational q stands for the float
  value q*pi.  This is an exact-arithmetic idealization of IEEE float
  rounding.  The rationals are represented by the executable fraction type
  `Frac` below (numerator/positive denominator, normalized with a gcd that the
  kernel can evaluate), so that concrete runs of the driver can be settled by
  `decide`.
* A float value with no finite result (the IEEE `+inf` produced by
  `LED_PI * 100 / 0.0f` when the fade duration is zero) is modelled as
  `none : Option Frac`; the subsequent `(size_t)` cast of a non-finite phase in
  `lite_led_get_percent_from_phase` is undefined behavior in C, so the tick
  handler is modelled as partial (`Option`-valued) and returns `none` from the
  point where that cast would be executed.
* Function pointers are modelled by their nullness (`Bool`: `true` stands for
  a non-null pointer); invocations of the brightness callback are recorded in
  an event trace so that per-tick callback behavior can be stated.
* The configuration in `lite_led_cfg.h` is fixed: `LED_POLL_PERIOD_MS = 100`,
  `LED_BREATH_LUT_ENABLE = 1` (so only the lookup-table branch of the
  brightness computation is compiled), `LED_MAX = 4`.
-/

/-! ## Executable rational numbers

`Nat.gcd` is not reduced by the kernel, so `Rat` cannot be evaluated by
`decide`.  `Frac` is a plain fraction type whose gcd is fuel-based structural
recursion; `gcdFuel_eq_gcd` shows it agrees with `Nat.gcd`. -/

def gcdFuel : Nat → Nat → Nat → Nat
  | 0, _, b => b
  | fuel + 1, a, b => if a = 0 then b else gcdFuel fuel (b % a) a

def myGcd (a b : Nat) : Nat := gcdFuel (a + 1) a b

/-- An exact fraction `num / den`.  Every value the driver model constructs is
normalized (`Frac.norm`) and has a positive denominator, so structural
equality of `Frac` values coincides with equality of the rationals they
denote. -/
structure Frac where
  num : Int
  den : Nat
deriving DecidableEq

def Frac.norm (q : Frac) : Frac :=
  let g := myGcd q.num.natAbs q.den
  if g = 0 then q else { num := q.num.tdiv g, den := q.den / g }

/-- The fraction `a / b` for natural `a`, `b` (`b ≠ 0` at every use site). -/
def Frac.ofDiv (a b : Nat) : Frac := Frac.norm { num := a, den := b }

def Frac.ofInt (n : Int) : Frac := { num := n, den := 1 }

def Frac.neg (q : Frac) : Frac := { num := -q.num, den := q.den }

def Frac.add (x y : Frac) : Frac :=
  Frac.norm { num := x.num * y.den + y.num * x.den, den := x.den * y.den }

def Frac.sub (x y : Frac) : Frac := Frac.add x (Frac.neg y)

/-- Comparison `x ≤ y`, valid because all denominators are positive. -/
def Frac.le (x y : Frac) : Bool := x.num * (y.den : Int) ≤ y.num * (x.den : Int)

/-- Truncation toward zero of `q * k` (the C cast `(size_t)(phase / step)`
with `phase = q * pi` and `step = pi / k`); call sites only ever pass a
non-negative `q`. -/
def Frac.truncMul (q : Frac) (k : Nat) : Nat := ((q.num * k).tdiv q.den).toNat

/-! ## Configuration constants (inc/lite_led_cfg.h, inc/lite_led.h) -/

def LED_POLL_PERIOD_MS : Nat := 100

def LED_MAX : Nat := 4

def LED_NUM : Nat := LED_MAX

def LED_MAX_BRIGHTNESS : Nat := 100

def LED_MIN_BRIGHTNESS : Nat := 0

def LED_BLOCK_FOREVER : Nat := 4294967295

def LED_ERROR_NONE : Int := 0

def LED_ERROR_PARA_INVALID : Int := -1

def LED_ERROR_MODE_INVALID : Int := -2

def LED_ERROR_ALTERNATE_ID : Int := -3

/-- led_mode_e values.  The mode is kept as a `Nat` in the records because
`lite_led_write` stores the caller's mode field before validating it, so
out-of-range values are representable. -/
def LED_MODE_OFF : Nat := 0

def LED_MODE_ON : Nat := 1

def LED_MODE_BLINK : Nat := 2

def LED_MODE_BREATH : Nat := 3

def LED_MODE_FADE_IN : Nat := 4

def LED_MODE_FADE_OUT : Nat := 5

def LED_MODE_ALTERNATE : Nat := 6

/-! ## Data model (inc/lite_led.h) -/

/-- led_cfg_t: the caller-facing configuration. -/
structure led_cfg_t where
  mode : Nat
  alter_id : Nat
  on_ms : Nat
  off_ms : Nat
  fade_ms : Nat
  alternate_ms : Nat
  duration_ms : Nat
deriving DecidableEq

/-- led_inner_cfg_t: the tick-converted configuration stored in the record. -/
structure led_inner_cfg_t where
  mode : Nat
  alter_id : Nat
  on_tick : Nat
  off_tick : Nat
  fade_tick : Nat
  alternate_tick : Nat
  duration_tick : Nat
deriving DecidableEq

/-- led_status_t: runtime status.  `phase` and `phase_step` are stored in
units of pi (see the header comment); `phase_step = none` models the
non-finite float produced by dividing by a zero fade duration. -/
structure led_status_t where
  percent : Nat
  state : Bool
  next_tick : Nat
  remain_tick : Nat
  phase : Frac
  phase_step : Option Frac
  dur_timeout : Bool
deriving DecidableEq

/-- led_dev_t: one slot of the registry.  The two function pointers are
modelled by their nullness. -/
structure led_dev_t where
  id : Nat
  cfg : led_inner_cfg_t
  stat : led_status_t
  set_percent_cb : Bool
  dur_timeout_cb : Bool
deriving DecidableEq

/-- The all-zero status produced by `memset` (a zero float is `some 0`). -/
def zero_status : led_status_t :=
  { percent := 0
    state := false
    next_tick := 0
    remain_tick := 0
    phase := Frac.ofInt 0
    phase_step := some (Frac.ofInt 0)
    dur_timeout := false }

/-- The all-zero device record of the static initializer of `g_led_list`. -/
def zero_dev : led_dev_t :=
  { id := 0
    cfg := { mode := 0
             alter_id := 0
             on_tick := 0
             off_tick := 0
             fade_tick := 0
             alternate_tick := 0
             duration_tick := 0 }
    stat := zero_status
    set_percent_cb := false
    dur_timeout_cb := false }

/-- g_led_list: the static registry, `LED_NUM = 4` zero-initialized slots. -/
def g_led_list : List led_dev_t := [zero_dev, zero_dev, zero_dev, zero_dev]

/-! ## Brightness lookup table (lite_led.c, LED_BREATH_LUT_ENABLE = 1) -/

def LED_TABLE_SIZE : Nat := 128

/-- g_led_sin_table: the 129-entry table (`LED_TABLE_SIZE + 1`); the C
initializer lists 128 values, so the last entry is zero-initialized. -/
def g_led_sin_table : List Nat :=
  [  0,  1,  2,  3,  4,  5,  7,  8, 10, 11, 13, 15, 16, 18, 20, 22,
    24, 26, 28, 30, 32, 34, 37, 39, 41, 44, 46, 49, 51, 54, 56, 59,
    61, 64, 67, 69, 72, 75, 77, 80, 83, 86, 88, 91, 94, 97,100,100,
   100,100,100,100,100,100,100,100,100,100,100,100,100,100,100,100,
   100,100,100,100,100,100,100,100,100,100,100,100,100,100,100,100,
    97, 94, 91, 88, 86, 83, 80, 77, 75, 72, 69, 67, 64, 61, 59, 56,
    54, 51, 49, 46, 44, 41, 39, 37, 34, 32, 30, 28, 26, 24, 22, 20,
    18, 16, 15, 13, 11, 10,  8,  7,  5,  4,  3,  2,  1,  0,  0,  0,
     0]

/-- lite_led_get_percent_from_phase.  In the C source
`step = 2*pi / LED_TABLE_SIZE` and `index = (size_t)(phase / step)`; with the
phase argument in units of pi this is the truncation toward zero of
`phase * (LED_TABLE_SIZE / 2)`, i.e. of `phase * 64`. -/
def lite_led_get_percent_from_phase (phase : Frac) : Nat :=
  let index := phase.truncMul (LED_TABLE_SIZE / 2)
  let index := if LED_TABLE_SIZE < index then LED_TABLE_SIZE else index
  g_led_sin_table.getD index 0

/-! ## Registry operations (lite_led.c) -/

/-- lite_led_init. -/
def lite_led_init (regs : List led_dev_t) (id : Nat) (cb : Bool) :
    List led_dev_t × Int :=
  if LED_NUM ≤ id ∨ cb = false then (regs, -1)
  else (regs.set id { zero_dev with id := id, set_percent_cb := cb },
        LED_ERROR_NONE)

/-- Modelled from the spec: `lite_led_register_duration_timeout_cb` is
declared in `inc/lite_led.h` (and called by the example `main`) but its
definition is absent from the sources; the spec says it "attaches an optional
notification invoked exactly once, when the record's lifetime countdown
reaches zero" and "Fails with `InvalidArgument` on bad id". -/
def lite_led_register_duration_timeout_cb (regs : List led_dev_t) (id : Nat)
    (cb : Bool) : List led_dev_t × Int :=
  if LED_NUM ≤ id then (regs, LED_ERROR_PARA_INVALID)
  else (regs.set id { regs.getD id zero_dev with dur_timeout_cb := cb },
        LED_ERROR_NONE)

/-- The unconditional overwrite that `lite_led_write` performs on the record
before the mode switch: copy the tick-converted configuration and clear the
runtime status (keeping `remain_tick = duration_tick`). -/
def written_dev (led : led_dev_t) (cfg : led_cfg_t) : led_dev_t :=
  { led with
    cfg := { mode := cfg.mode
             alter_id := cfg.alter_id
             on_tick := cfg.on_ms / LED_POLL_PERIOD_MS
             off_tick := cfg.off_ms / LED_POLL_PERIOD_MS
             fade_tick := cfg.fade_ms / LED_POLL_PERIOD_MS
             alternate_tick := cfg.alternate_ms / LED_POLL_PERIOD_MS
             duration_tick := cfg.duration_ms / LED_POLL_PERIOD_MS }
    stat := { zero_status with
              remain_tick := cfg.duration_ms / LED_POLL_PERIOD_MS } }

/-- The BREATH / FADE_IN / FADE_OUT branch of the `lite_led_write` switch.
`LED_PI * LED_POLL_PERIOD_MS / fade_ms` is `100 / fade_ms` in units of pi;
dividing by a zero `fade_ms` gives the non-finite value `none`.  The C guard
`phase_step <= 0.0f` never holds for a positive quotient, and `+inf <= 0.0f`
is false as well, so the guard is applied inside `Option.map`. -/
def fade_setup (cfg : led_cfg_t) (led : led_dev_t) : led_dev_t :=
  let raw : Option Frac :=
    if cfg.fade_ms = 0 then none
    else some (Frac.ofDiv LED_POLL_PERIOD_MS cfg.fade_ms)
  let step : Option Frac :=
    raw.map (fun s => if s.le (Frac.ofInt 0) then
      Frac.ofDiv 1 LED_MAX_BRIGHTNESS else s)
  if cfg.mode = LED_MODE_FADE_OUT then
    { led with stat := { led.stat with
                         percent := LED_MAX_BRIGHTNESS
                         phase := Frac.ofInt 1
                         phase_step := step.map Frac.neg } }
  else
    { led with stat := { led.stat with
                         percent := LED_MIN_BRIGHTNESS
                         phase := Frac.ofInt 0
                         phase_step := step } }

/-- lite_led_write.  Note that the record is overwritten (`written_dev`)
before the mode switch runs, exactly as in the C source, so the error paths
for an unrecognized mode and for a self-paired alternate return only after
the overwrite has already happened. -/
def lite_led_write (regs : List led_dev_t) (id : Nat) (cfg : led_cfg_t) :
    List led_dev_t × Int :=
  if LED_MAX ≤ id then (regs, LED_ERROR_PARA_INVALID)
  else
    let led := written_dev (regs.getD id zero_dev) cfg
    if cfg.mode = LED_MODE_ON ∨ cfg.mode = LED_MODE_OFF ∨
       cfg.mode = LED_MODE_BLINK then
      (regs.set id led, LED_ERROR_NONE)
    else if cfg.mode = LED_MODE_BREATH ∨ cfg.mode = LED_MODE_FADE_IN ∨
            cfg.mode = LED_MODE_FADE_OUT then
      (regs.set id (fade_setup cfg led), LED_ERROR_NONE)
    else if cfg.mode = LED_MODE_ALTERNATE then
      if id = cfg.alter_id then (regs.set id led, LED_ERROR_ALTERNATE_ID)
      else (regs.set id led, LED_ERROR_NONE)
    else (regs.set id led, LED_ERROR_MODE_INVALID)

/-- lite_led_read: returns a snapshot of the status and the error code. -/
def lite_led_read (regs : List led_dev_t) (id : Nat) :
    Option led_status_t × Int :=
  if LED_NUM ≤ id then (none, LED_ERROR_PARA_INVALID)
  else (some (regs.getD id zero_dev).stat, LED_ERROR_NONE)

/-! ## The tick handler (lite_led_poll_handle) -/

/-- A callback invocation observed during one tick: `setBrt i p` is a call of
slot `i`'s brightness callback with percentage `p`.  `durTimeout i` would be a
call of slot `i`'s duration-timeout callback; the translated tick handler
never emits it, because the C source never invokes `dur_timeout_cb`. -/
inductive Event where
  | setBrt : Nat → Nat → Event
  | durTimeout : Nat → Event
deriving DecidableEq

/-- The mode switch of `lite_led_poll_handle`, for one record.  `regs` is the
registry as the loop sees it at this point (slots with a smaller index have
already been updated this tick); it is read by the ALTERNATE branch.  The
result is `none` exactly when the C code would cast a non-finite phase to
`size_t` (undefined behavior). -/
def lite_led_dispatch (regs : List led_dev_t) (led : led_dev_t) :
    Option led_dev_t :=
  if led.cfg.mode = LED_MODE_OFF then
    some { led with stat := { led.stat with
                              state := false
                              percent := LED_MIN_BRIGHTNESS
                              next_tick := LED_BLOCK_FOREVER } }
  else if led.cfg.mode = LED_MODE_ON then
    some { led with stat := { led.stat with
                              state := true
                              percent := LED_MAX_BRIGHTNESS
                              next_tick := LED_BLOCK_FOREVER } }
  else if led.cfg.mode = LED_MODE_BLINK then
    if led.stat.state = false then
      some { led with stat := { led.stat with
                                next_tick := led.cfg.on_tick
                                percent := LED_MAX_BRIGHTNESS
                                state := true } }
    else
      some { led with stat := { led.stat with
                                next_tick := led.cfg.off_tick
                                percent := LED_MIN_BRIGHTNESS
                                state := false } }
  else if led.cfg.mode = LED_MODE_FADE_IN ∨ led.cfg.mode = LED_MODE_FADE_OUT ∨
          led.cfg.mode = LED_MODE_BREATH then
    match led.stat.phase_step with
    | none => none
    | some st =>
      let ph := led.stat.phase.add st
      let adj : Frac × Nat :=
        if led.cfg.mode = LED_MODE_BREATH then
          (if (Frac.ofInt 2).le ph then ph.sub (Frac.ofInt 2) else ph,
           led.stat.next_tick)
        else if led.cfg.mode = LED_MODE_FADE_IN then
          (if (Frac.ofInt 1).le ph then Frac.ofInt 1 else ph,
           if (Frac.ofInt 1).le ph then LED_BLOCK_FOREVER else led.stat.next_tick)
        else
          (if ph.le (Frac.ofInt 0) then Frac.ofInt 0 else ph,
           if ph.le (Frac.ofInt 0) then LED_BLOCK_FOREVER else led.stat.next_tick)
      let p := lite_led_get_percent_from_phase adj.1
      let p := if LED_MAX_BRIGHTNESS ≤ p then LED_MAX_BRIGHTNESS else p
      some { led with stat := { led.stat with
                                phase := adj.1
                                next_tick := adj.2
                                percent := p } }
  else if led.cfg.mode = LED_MODE_ALTERNATE then
    if LED_NUM ≤ led.cfg.alter_id then some led
    else
      let st :=
        if led.id < led.cfg.alter_id then !led.stat.state
        else !(regs.getD led.cfg.alter_id zero_dev).stat.state
      some { led with stat := { led.stat with
                                next_tick := led.cfg.alternate_tick
                                state := st
                                percent := if st then LED_MAX_BRIGHTNESS
                                           else LED_MIN_BRIGHTNESS } }
  else some led

/-- One iteration of the loop body of `lite_led_poll_handle`, for slot `i`.
The returned event list holds the brightness-callback invocation of this
slot, when one happened. -/
def lite_led_poll_slot (regs : List led_dev_t) (i : Nat) :
    Option (List led_dev_t × List Event) :=
  let led := regs.getD i zero_dev
  if led.set_percent_cb = false then some (regs, [])
  else
    if led.stat.remain_tick = 1 then
      some (regs.set i { led with
                         cfg := { led.cfg with mode := LED_MODE_OFF }
                         stat := { led.stat with
                                   remain_tick := 0
                                   next_tick := 0 } }, [])
    else
      let led := if led.stat.remain_tick ≠ 0 then
          { led with stat := { led.stat with
                               remain_tick := led.stat.remain_tick - 1 } }
        else led
      if led.stat.next_tick = LED_BLOCK_FOREVER then some (regs.set i led, [])
      else if 2 ≤ led.stat.next_tick then
        some (regs.set i { led with
                           stat := { led.stat with
                                     next_tick := led.stat.next_tick - 1 } }, [])
      else
        let led := { led with stat := { led.stat with next_tick := 0 } }
        match lite_led_dispatch (regs.set i led) led with
        | none => none
        | some led2 => some (regs.set i led2, [Event.setBrt i led2.stat.percent])

/-- The loop of `lite_led_poll_handle` over a list of slot indices. -/
def poll_slots : List led_dev_t → List Nat → Option (List led_dev_t × List Event)
  | regs, [] => some (regs, [])
  | regs, i :: rest =>
    match lite_led_poll_slot regs i with
    | none => none
    | some (regs1, evs) =>
      match poll_slots regs1 rest with
      | none => none
      | some (regs2, evs2) => some (regs2, evs ++ evs2)

/-- lite_led_poll_handle: one tick over all `LED_NUM = 4` slots, in ascending
slot order. -/
def lite_led_poll_handle (regs : List led_dev_t) :
    Option (List led_dev_t × List Event) :=
  poll_slots regs [0, 1, 2, 3]

/-- The registry after `n` consecutive ticks (`none` when a tick ran into the
undefined-behavior case). -/
def pollRegs : Nat → List led_dev_t → Option (List led_dev_t)
  | 0, regs => some regs
  | n + 1, regs =>
    ((lite_led_poll_handle regs).map Prod.fst).bind (pollRegs n)

/-- The registry after `n` ticks of a run that stays defined (`[]` is only the
fallback for an undefined run). -/
def regsAfter (regs : List led_dev_t) (n : Nat) : List led_dev_t :=
  (pollRegs n regs).getD []

/-- The events emitted during the `(n+1)`-th tick.  The fallback for an
undefined run is a non-empty dummy trace, so `= []` also certifies that the
run is defined that far. -/
def tickEvents (regs : List led_dev_t) (n : Nat) : List Event :=
  ((pollRegs n regs).bind fun r =>
    (lite_led_poll_handle r).map Prod.snd).getD [Event.durTimeout LED_NUM]

/-- The brightness of slot `i` after `n` ticks; `999` is the fallback for an
undefined run, so any value in `[0, 100]` proves the run defined up to `n`. -/
def percentAfter (regs : List led_dev_t) (i n : Nat) : Nat :=
  ((pollRegs n regs).map fun r =>
    (r.getD i zero_dev).stat.percent).getD 999

/-- Recognizer for duration-timeout events. -/
def isDurTimeout : Event → Bool
  | Event.durTimeout _ => true
  | Event.setBrt _ _ => false

/-! ## Call sequences (for the registry-wide invariant) -/

/-- One external operation on the driver. -/
inductive Op where
  | opInit : Nat → Bool → Op
  | opWrite : Nat → led_cfg_t → Op
  | opRegister : Nat → Bool → Op
  | opPoll : Op

/-- Apply one operation (dropping error codes and events). -/
def applyOp (regs : List led_dev_t) : Op → Option (List led_dev_t)
  | .opInit id cb => some (lite_led_init regs id cb).1
  | .opWrite id cfg => some (lite_led_write regs id cfg).1
  | .opRegister id cb =>
    some (lite_led_register_duration_timeout_cb regs id cb).1
  | .opPoll => (lite_led_poll_handle regs).map Prod.fst

/-- Run a sequence of operations from a given registry. -/
def runFrom (regs : List led_dev_t) : List Op → Option (List led_dev_t)
  | [] => some regs
  | op :: rest => (applyOp regs op).bind fun regs1 => runFrom regs1 rest

/-- Run a sequence of operations from the initial registry. -/
def runOps (ops : List Op) : Option (List led_dev_t) := runFrom g_led_list ops

/-! ## Concrete scenarios used by the claims -/

/-- A BLINK configuration: on 200 ms, off 800 ms, indefinite. -/
def c5_blink_cfg : led_cfg_t :=
  { mode := LED_MODE_BLINK, alter_id := 0, on_ms := 200, off_ms := 800,
    fade_ms := 0, alternate_ms := 0, duration_ms := 0 }

/-- Registry: slot 1 initialized and configured for BLINK 200/800. -/
def c5_blink_regs : List led_dev_t :=
  (lite_led_write (lite_led_init g_led_list 1 true).1 1 c5_blink_cfg).1

/-- A BREATH configuration with fade duration 1000 ms, indefinite. -/
def c7_breath_cfg : led_cfg_t :=
  { mode := LED_MODE_BREATH, alter_id := 0, on_ms := 0, off_ms := 0,
    fade_ms := 1000, alternate_ms := 0, duration_ms := 0 }

/-- Registry: slot 0 initialized and configured for BREATH 1000. -/
def c7_breath_regs : List led_dev_t :=
  (lite_led_write (lite_led_init g_led_list 0 true).1 0 c7_breath_cfg).1

/-- Registry: slot 1 initialized, expiry callback registered, configured ON
with effect duration 500 ms. -/
def c2_dur_regs : List led_dev_t :=
  (lite_led_write (lite_led_register_duration_timeout_cb
      (lite_led_init g_led_list 1 true).1 1 true).1 1
    { mode := LED_MODE_ON, alter_id := 0, on_ms := 0, off_ms := 0,
      fade_ms := 0, alternate_ms := 0, duration_ms := 500 }).1

/-- A BREATH configuration with the given fade duration. -/
def c4_breath_cfg (fms : Nat) : led_cfg_t :=
  { mode := LED_MODE_BREATH, alter_id := 0, on_ms := 0, off_ms := 0,
    fade_ms := fms, alternate_ms := 0, duration_ms := 0 }

/-- Registry: slot 0 initialized and configured for BREATH with the given
fade duration. -/
def c4_fade_regs (fms : Nat) : List led_dev_t :=
  (lite_led_write (lite_led_init g_led_list 0 true).1 0 (c4_breath_cfg fms)).1

/-- Registry: slot 0 initialized, configured ON, and ticked once, so that its
stored configuration is `ON` and its brightness is 100. -/
def c1_pre_regs : List led_dev_t :=
  regsAfter (lite_led_write (lite_led_init g_led_list 0 true).1 0
    { mode := LED_MODE_ON, alter_id := 0, on_ms := 0, off_ms := 0,
      fade_ms := 0, alternate_ms := 0, duration_ms := 0 }).1 1

/-- A configuration with an unrecognized mode value (7). -/
def c1_bad_cfg : led_cfg_t :=
  { mode := 7, alter_id := 0, on_ms := 0, off_ms := 0, fade_ms := 0,
    alternate_ms := 0, duration_ms := 0 }

/-- A sample operation sequence for the witness. -/
def c8_demo_ops : List Op :=
  [Op.opInit 0 true, Op.opWrite 0 c7_breath_cfg, Op.opPoll, Op.opPoll]

/-! ## The ALTERNATE pairing (claim C6)

Scenario: slots 0 (lower id, the driver of the pair) and 1 (higher id) are
initialized and both configured in ALTERNATE mode referencing each other with
the same alternate period `T` ticks (`alternate_ms = T * 100`); the period is
arbitrary.  `c6_state T k s` is the lockstep shape every reachable state has
after the first tick: both countdowns equal `k` and slot 1 mirrors the
negation of slot 0.  `T < LED_BLOCK_FOREVER` reflects that the countdown of a
`uint32` millisecond period can never reach the sentinel. -/

def c6_cfg (peer T : Nat) : led_cfg_t :=
  { mode := LED_MODE_ALTERNATE, alter_id := peer, on_ms := 0, off_ms := 0,
    fade_ms := 0, alternate_ms := T * LED_POLL_PERIOD_MS, duration_ms := 0 }

def c6_regs (T : Nat) : List led_dev_t :=
  (lite_led_write (lite_led_write
    (lite_led_init (lite_led_init g_led_list 0 true).1 1 true).1
    0 (c6_cfg 1 T)).1 1 (c6_cfg 0 T)).1

def c6_dev (i peer T k : Nat) (s : Bool) : led_dev_t :=
  { id := i
    cfg := { mode := LED_MODE_ALTERNATE
             alter_id := peer
             on_tick := 0
             off_tick := 0
             fade_tick := 0
             alternate_tick := T
             duration_tick := 0 }
    stat := { zero_status with
              state := s
              percent := if s then LED_MAX_BRIGHTNESS else LED_MIN_BRIGHTNESS
              next_tick := k }
    set_percent_cb := true
    dur_timeout_cb := false }

def c6_state (T k : Nat) (s : Bool) : List led_dev_t :=
  [c6_dev 0 1 T k s, c6_dev 1 0 T k (!s), zero_dev, zero_dev]

/-! ## Correctness of the executable gcd -/

theorem gcdFuel_eq_gcd : ∀ fuel a b, a < fuel → gcdFuel fuel a b = Nat.gcd a b := by
  intro fuel
  induction fuel with
  | zero => intro a b h; omega
  | succ n ih =>
    intro a b h
    by_cases ha : a = 0
    · subst ha; simp [gcdFuel]
    · have hmod : b % a < a := Nat.mod_lt _ (Nat.pos_of_ne_zero ha)
      have hrec := ih (b % a) a (by omega)
      simp only [gcdFuel, if_neg ha, hrec]
      rw [Nat.gcd_rec a b]

theorem myGcd_eq_gcd (a b : Nat) : myGcd a b = Nat.gcd a b :=
  gcdFuel_eq_gcd (a + 1) a b (Nat.lt_succ_self a)

/-! ## General lemmas about multi-tick runs -/

theorem pollRegs_add (a b : Nat) (regs : List led_dev_t) :
    pollRegs (a + b) regs = (pollRegs a regs).bind (pollRegs b) := by
  induction a generalizing regs with
  | zero => simp [pollRegs]
  | succ n ih =>
    have : n + 1 + b = (n + b) + 1 := by omega
    rw [this]
    simp only [pollRegs, Option.bind_assoc]
    cases (lite_led_poll_handle regs).map Prod.fst with
    | none => simp
    | some r => simp [ih r]

theorem pollRegs_succ_back (n : Nat) (regs : List led_dev_t) :
    pollRegs (n + 1) regs =
      (pollRegs n regs).bind fun r => (lite_led_poll_handle r).map Prod.fst := by
  rw [pollRegs_add n 1]
  have : ∀ r, pollRegs 1 r = (lite_led_poll_handle r).map Prod.fst := by
    intro r
    simp [pollRegs]
  simp only [this]

/-! ## The brightness bound (claim C8) -/

theorem getD_percent_le (regs : List led_dev_t) (i : Nat)
    (hp : ∀ d ∈ regs, d.stat.percent ≤ 100) :
    (regs.getD i zero_dev).stat.percent ≤ 100 := by
  have h : regs.getD i zero_dev = (regs.get? i).getD zero_dev := by
    simp [List.getD_eq_getElem?_getD, List.get?_eq_getElem?]
  rw [h]
  cases hg : regs.get? i with
  | none => simp [zero_dev, zero_status]
  | some a => simpa using hp a (List.get?_mem hg)

theorem set_percent_le (regs : List led_dev_t) (i : Nat) (d : led_dev_t)
    (hp : ∀ x ∈ regs, x.stat.percent ≤ 100) (hd : d.stat.percent ≤ 100) :
    ∀ x ∈ regs.set i d, x.stat.percent ≤ 100 := by
  intro x hx
  rcases List.mem_or_eq_of_mem_set hx with h | rfl
  · exact hp x h
  · exact hd

theorem dispatch_percent_le (regs : List led_dev_t) (led led2 : led_dev_t)
    (h : lite_led_dispatch regs led = some led2) (hl : led.stat.percent ≤ 100) :
    led2.stat.percent ≤ 100 := by
  simp only [lite_led_dispatch] at h
  repeat' split at h
  all_goals first
    | exact Option.noConfusion h
    | (injection h with h; subst h;
       simp_all [LED_MIN_BRIGHTNESS, LED_MAX_BRIGHTNESS]; try omega)

theorem poll_slot_percent_le (regs regs2 : List led_dev_t) (i : Nat)
    (evs : List Event) (h : lite_led_poll_slot regs i = some (regs2, evs))
    (hp : ∀ d ∈ regs, d.stat.percent ≤ 100) :
    ∀ d ∈ regs2, d.stat.percent ≤ 100 := by
  have hg := getD_percent_le regs i hp
  simp only [lite_led_poll_slot] at h
  repeat' split at h
  all_goals try exact Option.noConfusion h
  all_goals simp only [Option.some.injEq, Prod.mk.injEq] at h
  all_goals obtain ⟨h1, h2⟩ := h
  all_goals subst h1
  all_goals first
    | exact hp
    | (refine set_percent_le _ _ _ hp ?_;
       first
         | exact hg
         | (refine dispatch_percent_le _ _ _ (by assumption) ?_; exact hg))

theorem written_dev_percent (led : led_dev_t) (cfg : led_cfg_t) :
    (written_dev led cfg).stat.percent = 0 := rfl

theorem fade_setup_percent_le (cfg : led_cfg_t) (led : led_dev_t) :
    (fade_setup cfg led).stat.percent ≤ 100 := by
  unfold fade_setup
  split_ifs <;> simp [LED_MAX_BRIGHTNESS, LED_MIN_BRIGHTNESS]

theorem poll_slots_percent_le (idx : List Nat) :
    ∀ (regs regs2 : List led_dev_t) (evs : List Event),
    poll_slots regs idx = some (regs2, evs) →
    (∀ d ∈ regs, d.stat.percent ≤ 100) → ∀ d ∈ regs2, d.stat.percent ≤ 100 := by
  induction idx with
  | nil =>
    intro regs regs2 evs h hp
    simp only [poll_slots, Option.some.injEq, Prod.mk.injEq] at h
    obtain ⟨h1, h2⟩ := h
    subst h1
    exact hp
  | cons i rest ih =>
    intro regs regs2 evs h hp
    simp only [poll_slots] at h
    cases hs : lite_led_poll_slot regs i with
    | none => rw [hs] at h; exact Option.noConfusion h
    | some pr =>
      obtain ⟨regs1, evs1⟩ := pr
      simp only [hs] at h
      cases hps : poll_slots regs1 rest with
      | none => simp only [hps] at h; exact Option.noConfusion h
      | some pr2 =>
        obtain ⟨regs3, evs3⟩ := pr2
        simp only [hps, Option.some.injEq, Prod.mk.injEq] at h
        obtain ⟨h1, h2⟩ := h
        subst h1
        exact ih regs1 regs3 evs3 hps (poll_slot_percent_le regs regs1 i evs1 hs hp)

theorem applyOp_percent_le (regs regs2 : List led_dev_t) (op : Op)
    (h : applyOp regs op = some regs2)
    (hp : ∀ d ∈ regs, d.stat.percent ≤ 100) :
    ∀ d ∈ regs2, d.stat.percent ≤ 100 := by
  cases op with
  | opInit id cb =>
    simp only [applyOp, Option.some.injEq] at h
    subst h
    simp only [lite_led_init]
    split_ifs
    · exact hp
    · refine set_percent_le _ _ _ hp ?_
      simp [zero_dev, zero_status]
  | opWrite id cfg =>
    simp only [applyOp, Option.some.injEq] at h
    subst h
    simp only [lite_led_write]
    split_ifs <;>
      first
        | exact hp
        | (refine set_percent_le _ _ _ hp ?_;
           first
             | exact fade_setup_percent_le _ _
             | (rw [written_dev_percent]; omega))
  | opRegister id cb =>
    simp only [applyOp, Option.some.injEq] at h
    subst h
    simp only [lite_led_register_duration_timeout_cb]
    split_ifs
    · exact hp
    · refine set_percent_le _ _ _ hp ?_
      exact getD_percent_le regs id hp
  | opPoll =>
    simp only [applyOp] at h
    cases hph : lite_led_poll_handle regs with
    | none => rw [hph] at h; exact Option.noConfusion h
    | some pr =>
      obtain ⟨regs1, evs⟩ := pr
      rw [hph] at h
      injection h with h
      subst h
      exact poll_slots_percent_le [0, 1, 2, 3] regs regs1 evs hph hp

theorem runFrom_percent_le (ops : List Op) :
    ∀ (regs regs2 : List led_dev_t), runFrom regs ops = some regs2 →
    (∀ d ∈ regs, d.stat.percent ≤ 100) → ∀ d ∈ regs2, d.stat.percent ≤ 100 := by
  induction ops with
  | nil =>
    intro regs regs2 h hp
    simp only [runFrom, Option.some.injEq] at h
    subst h
    exact hp
  | cons op rest ih =>
    intro regs regs2 h hp
    simp only [runFrom] at h
    cases ha : applyOp regs op with
    | none => rw [ha] at h; exact Option.noConfusion h
    | some r1 =>
      rw [ha] at h
      exact ih r1 regs2 h (applyOp_percent_le regs r1 op ha hp)

/-! ## Lockstep lemmas for the ALTERNATE pair -/

theorem c6_regs_eq (T : Nat) :
    c6_regs T = [c6_dev 0 1 T 0 false, c6_dev 1 0 T 0 false,
                 zero_dev, zero_dev] := by
  have hT : T * LED_POLL_PERIOD_MS / LED_POLL_PERIOD_MS = T :=
    Nat.mul_div_cancel T (by decide)
  simp [c6_regs, c6_cfg, lite_led_init, lite_led_write, written_dev,
        fade_setup, g_led_list, c6_dev, zero_dev, zero_status, hT,
        LED_MODE_ALTERNATE, LED_MODE_ON, LED_MODE_OFF, LED_MODE_BLINK,
        LED_MODE_BREATH, LED_MODE_FADE_IN, LED_MODE_FADE_OUT, LED_NUM,
        LED_MAX, LED_POLL_PERIOD_MS, LED_ERROR_NONE,
        LED_MIN_BRIGHTNESS, LED_MAX_BRIGHTNESS]

theorem c6_base (T : Nat) :
    lite_led_poll_handle (c6_regs T) =
      some (c6_state T T true, [Event.setBrt 0 100, Event.setBrt 1 0]) := by
  rw [c6_regs_eq]
  simp [lite_led_poll_handle, poll_slots, lite_led_poll_slot,
        lite_led_dispatch, c6_state, c6_dev, zero_dev, zero_status,
        LED_BLOCK_FOREVER, LED_NUM, LED_MAX, LED_MODE_ALTERNATE,
        LED_MODE_ON, LED_MODE_OFF, LED_MODE_BLINK, LED_MODE_BREATH,
        LED_MODE_FADE_IN, LED_MODE_FADE_OUT, LED_MAX_BRIGHTNESS,
        LED_MIN_BRIGHTNESS]

theorem c6_step (T k : Nat) (s : Bool) (hk : k ≤ T) (hT : T < LED_BLOCK_FOREVER) :
    lite_led_poll_handle (c6_state T k s) =
      some (c6_state T (if k ≤ 1 then T else k - 1) (if k ≤ 1 then !s else s),
            if k ≤ 1 then
              [Event.setBrt 0 (if !s then 100 else 0),
               Event.setBrt 1 (if s then 100 else 0)]
            else []) := by
  have hkF : k ≠ LED_BLOCK_FOREVER := by
    simp only [LED_BLOCK_FOREVER] at hT ⊢
    omega
  rcases Nat.lt_or_ge k 2 with hk2 | hk2
  · have hk1 : k ≤ 1 := by omega
    interval_cases k <;> cases s <;>
      simp [lite_led_poll_handle, poll_slots, lite_led_poll_slot,
            lite_led_dispatch, c6_state, c6_dev, zero_dev, zero_status,
            LED_BLOCK_FOREVER, LED_NUM, LED_MAX, LED_MODE_ALTERNATE,
            LED_MODE_ON, LED_MODE_OFF, LED_MODE_BLINK, LED_MODE_BREATH,
            LED_MODE_FADE_IN, LED_MODE_FADE_OUT, LED_MAX_BRIGHTNESS,
            LED_MIN_BRIGHTNESS]
  · have hk1 : ¬ k ≤ 1 := by omega
    cases s <;>
      simp [lite_led_poll_handle, poll_slots, lite_led_poll_slot,
            lite_led_dispatch, c6_state, c6_dev, zero_dev, zero_status,
            LED_NUM, LED_MAX, LED_MODE_ALTERNATE,
            LED_MODE_ON, LED_MODE_OFF, LED_MODE_BLINK, LED_MODE_BREATH,
            LED_MODE_FADE_IN, LED_MODE_FADE_OUT, LED_MAX_BRIGHTNESS,
            LED_MIN_BRIGHTNESS, hkF, hk2, hk1]

theorem c6_traj (T : Nat) (hT : T < LED_BLOCK_FOREVER) (n : Nat) :
    ∃ k s, k ≤ T ∧ pollRegs (n + 1) (c6_regs T) = some (c6_state T k s) := by
  induction n with
  | zero =>
    refine ⟨T, true, le_refl T, ?_⟩
    rw [pollRegs_succ_back 0]
    simp [pollRegs, c6_base T]
  | succ m ih =>
    obtain ⟨k, s, hk, hps⟩ := ih
    refine ⟨if k ≤ 1 then T else k - 1, if k ≤ 1 then !s else s, ?_, ?_⟩
    · split_ifs <;> omega
    · rw [pollRegs_succ_back (m + 1), hps]
      simp [c6_step T k s hk hT]

/-! ## Claims -/

/-- C1 (counterexample): slot 0 is configured `ON` with brightness 100; a
`Configure` call with the unrecognized mode 7 returns `InvalidMode` as
claimed, but the slot is NOT left unchanged: its stored mode is now 7 and its
runtime status (brightness) has been reset to 0. -/
theorem C1_counterexample :
    (lite_led_write c1_pre_regs 0 c1_bad_cfg).2 = LED_ERROR_MODE_INVALID ∧
    (c1_pre_regs.getD 0 zero_dev).cfg.mode = LED_MODE_ON ∧
    (c1_pre_regs.getD 0 zero_dev).stat.percent = 100 ∧
    ((lite_led_write c1_pre_regs 0 c1_bad_cfg).1.getD 0 zero_dev).cfg.mode = 7 ∧
    ((lite_led_write c1_pre_regs 0 c1_bad_cfg).1.getD 0 zero_dev).stat.percent = 0 ∧
    (lite_led_write c1_pre_regs 0 c1_bad_cfg).1 ≠ c1_pre_regs := by
  decide

/-- C1 (amended): for every valid id, `Configure` with an unrecognized mode
returns `InvalidMode`, and `Configure` in `ALTERNATE` mode with
`alter_id = id` returns `InvalidAlternatePeer`; in both cases the slot's
configuration has already been overwritten with the new tick-converted values
and its runtime status reset (`written_dev`), so the previously stored
configuration and status are lost rather than preserved. -/
theorem C1_amended (regs : List led_dev_t) (id : Nat) (cfg : led_cfg_t)
    (h1 : id < LED_MAX)
    (h2 : 7 ≤ cfg.mode ∨ (cfg.mode = LED_MODE_ALTERNATE ∧ cfg.alter_id = id)) :
    lite_led_write regs id cfg =
      (regs.set id (written_dev (regs.getD id zero_dev) cfg),
       if 7 ≤ cfg.mode then LED_ERROR_MODE_INVALID else LED_ERROR_ALTERNATE_ID) := by
  simp only [lite_led_write, LED_MODE_ON, LED_MODE_OFF, LED_MODE_BLINK,
    LED_MODE_BREATH, LED_MODE_FADE_IN, LED_MODE_FADE_OUT, LED_MODE_ALTERNATE,
    LED_MAX] at *
  split_ifs <;> first | rfl | omega

/-- Witness for `C1_amended` at a concrete input. -/
theorem C1_amended_witness :
    lite_led_write g_led_list 0 c1_bad_cfg =
      (g_led_list.set 0 (written_dev (g_led_list.getD 0 zero_dev) c1_bad_cfg),
       LED_ERROR_MODE_INVALID) := by
  have h := C1_amended g_led_list 0 c1_bad_cfg (by decide) (Or.inl (by decide))
  simpa [c1_bad_cfg] using h

/-- C2 (code behavior at the claimed input): slot 1 is configured `ON` with
`effect_duration = 500` ms and a registered expiry callback.  After the 5th
tick the mode is indeed `OFF`, but the brightness is still 100 (it only
drops to 0 on the 6th tick), the tick that expires the lifetime emits no
callback at all, the `dur_timeout` flag is never set, and no duration-timeout
callback invocation ever occurs during 20 ticks — the C sources never call
`dur_timeout_cb`. -/
theorem C2_code_behavior :
    ((regsAfter c2_dur_regs 5).getD 1 zero_dev).cfg.mode = LED_MODE_OFF ∧
    percentAfter c2_dur_regs 1 5 = 100 ∧
    percentAfter c2_dur_regs 1 6 = 0 ∧
    ((regsAfter c2_dur_regs 5).getD 1 zero_dev).stat.dur_timeout = false ∧
    ((regsAfter c2_dur_regs 20).getD 1 zero_dev).stat.dur_timeout = false ∧
    tickEvents c2_dur_regs 4 = [] ∧
    ((List.range 20).all fun n =>
      (tickEvents c2_dur_regs n).all fun e => !(isDurTimeout e)) = true := by
  decide

/-- C3: at the phase pi/2 (reached at tick 5 of BREATH with
`fade_duration = 1000` and poll period 100), the lookup-table strategy yields
61 while the direct trigonometric formula `(1 - cos(phase)) / 2 * 100` yields
exactly 50 — a difference of 11 percentage points, far beyond rounding
tolerance. -/
theorem C3_lut_vs_formula :
    ((regsAfter c7_breath_regs 5).getD 0 zero_dev).stat.phase
      = { num := 1, den := 2 } ∧
    percentAfter c7_breath_regs 0 5 = 61 ∧
    lite_led_get_percent_from_phase { num := 1, den := 2 } = 61 ∧
    (1 - Real.cos (((1 : ℝ) / 2) * Real.pi)) / 2 * 100 = 50 := by
  refine ⟨by decide, by decide, by decide, ?_⟩
  rw [show ((1 : ℝ) / 2) * Real.pi = Real.pi / 2 by ring, Real.cos_pi_div_two]
  norm_num

/-- C4: configuring BREATH with `fade_ms = 0` stores the non-finite phase
step produced by the float division by zero (the `<= 0` fallback does not
replace it), and the next tick runs into the undefined `(size_t)` cast; for
`fade_ms = 50` (which rounds to 0 ticks) the stored step is 2*pi — not the
minimal fallback value pi/100 — so no substitution happens there either. -/
theorem C4_fade_zero_no_guard :
    ((c4_fade_regs 0).getD 0 zero_dev).stat.phase_step = none ∧
    lite_led_poll_handle (c4_fade_regs 0) = none ∧
    ((c4_fade_regs 50).getD 0 zero_dev).cfg.fade_tick = 0 ∧
    ((c4_fade_regs 50).getD 0 zero_dev).stat.phase_step
      = some { num := 2, den := 1 } ∧
    Frac.ofDiv 1 LED_MAX_BRIGHTNESS = { num := 1, den := 100 } := by
  decide

/-- C5: BLINK with on 200 ms / off 800 ms and poll period 100: tick 1 invokes
the callback with 100 and schedules a 2-tick on-phase, tick 2 is idle, tick 3
invokes the callback with 0 and schedules an 8-tick off-phase, ticks 4..10
are idle, and tick 11 invokes the callback with 100 again.  (`tickEvents r n`
is the trace of the `(n+1)`-th tick.) -/
theorem C5_blink_schedule :
    tickEvents c5_blink_regs 0 = [Event.setBrt 1 100] ∧
    ((regsAfter c5_blink_regs 1).getD 1 zero_dev).stat.next_tick = 2 ∧
    tickEvents c5_blink_regs 1 = [] ∧
    tickEvents c5_blink_regs 2 = [Event.setBrt 1 0] ∧
    ((regsAfter c5_blink_regs 3).getD 1 zero_dev).stat.next_tick = 8 ∧
    ((List.range 7).all fun n =>
      decide (tickEvents c5_blink_regs (3 + n) = [])) = true ∧
    tickEvents c5_blink_regs 10 = [Event.setBrt 1 100] := by
  decide

/-- C6: for the mutually-referencing ALTERNATE pair with matching period,
(1) the two slots are never simultaneously in the on state, (2) after every
tick from the first on, the higher slot's state is the logical negation of
the lower slot's state of the same tick, and (3) on each scheduled dispatch
tick (countdown at most 1) the lower slot toggles its own state and the
higher slot is set to the negation of the toggled state. -/
theorem C6_alternate (T : Nat) (hT : T < LED_BLOCK_FOREVER) :
    (∀ n, ¬(((regsAfter (c6_regs T) n).getD 0 zero_dev).stat.state = true ∧
            ((regsAfter (c6_regs T) n).getD 1 zero_dev).stat.state = true)) ∧
    (∀ n, ((regsAfter (c6_regs T) (n + 1)).getD 1 zero_dev).stat.state
        = !((regsAfter (c6_regs T) (n + 1)).getD 0 zero_dev).stat.state) ∧
    (∀ n, ((regsAfter (c6_regs T) n).getD 0 zero_dev).stat.next_tick ≤ 1 →
       ((regsAfter (c6_regs T) (n + 1)).getD 0 zero_dev).stat.state
           = !((regsAfter (c6_regs T) n).getD 0 zero_dev).stat.state ∧
       ((regsAfter (c6_regs T) (n + 1)).getD 1 zero_dev).stat.state
           = !((regsAfter (c6_regs T) (n + 1)).getD 0 zero_dev).stat.state) := by
  have hAfter : ∀ n, ∃ k s, k ≤ T ∧
      regsAfter (c6_regs T) (n + 1) = c6_state T k s := by
    intro n
    obtain ⟨k, s, hk, hps⟩ := c6_traj T hT n
    exact ⟨k, s, hk, by simp [regsAfter, hps]⟩
  have h0 : regsAfter (c6_regs T) 0 =
      [c6_dev 0 1 T 0 false, c6_dev 1 0 T 0 false, zero_dev, zero_dev] := by
    simp [regsAfter, pollRegs, c6_regs_eq]
  refine ⟨?_, ?_, ?_⟩
  · intro n
    cases n with
    | zero => simp [h0, c6_dev, zero_status]
    | succ m =>
      obtain ⟨k, s, hk, hst⟩ := hAfter m
      rw [hst]
      cases s <;> simp [c6_state, c6_dev, zero_status]
  · intro n
    obtain ⟨k, s, hk, hst⟩ := hAfter n
    rw [hst]
    simp [c6_state, c6_dev, zero_status]
  · intro n hn
    cases n with
    | zero =>
      have h1 : regsAfter (c6_regs T) 1 = c6_state T T true := by
        rw [regsAfter, pollRegs_succ_back 0]
        simp [pollRegs, c6_base T]
      rw [h0, h1]
      simp [c6_state, c6_dev, zero_status]
    | succ m =>
      obtain ⟨k, s, hk, hst⟩ := hAfter m
      rw [hst] at hn
      have hkn : k ≤ 1 := by
        simpa [c6_state, c6_dev, zero_status] using hn
      have hnext : regsAfter (c6_regs T) (m + 2) = c6_state T T (!s) := by
        rw [regsAfter, pollRegs_succ_back (m + 1)]
        have hps : pollRegs (m + 1) (c6_regs T) = some (c6_state T k s) := by
          have := hst
          rw [regsAfter] at this
          cases hq : pollRegs (m + 1) (c6_regs T) with
          | none =>
            rw [hq] at this
            simp [c6_state] at this
          | some r =>
            rw [hq] at this
            simp only [Option.getD_some] at this
            rw [this]
        rw [hps]
        have hstep := c6_step T k s hk hT
        simp [hstep, hkn]
      rw [hst, hnext]
      simp [c6_state, c6_dev, zero_status, hkn]

/-- Witness for `C6_alternate` at period `T = 5` (500 ms). -/
theorem C6_alternate_witness :
    ¬(((regsAfter (c6_regs 5) 7).getD 0 zero_dev).stat.state = true ∧
      ((regsAfter (c6_regs 5) 7).getD 1 zero_dev).stat.state = true) ∧
    ((regsAfter (c6_regs 5) 4).getD 1 zero_dev).stat.state
        = !((regsAfter (c6_regs 5) 4).getD 0 zero_dev).stat.state ∧
    (((regsAfter (c6_regs 5) 1).getD 0 zero_dev).stat.state
        = !((regsAfter (c6_regs 5) 0).getD 0 zero_dev).stat.state ∧
     ((regsAfter (c6_regs 5) 1).getD 1 zero_dev).stat.state
        = !((regsAfter (c6_regs 5) 1).getD 0 zero_dev).stat.state) := by
  have h := C6_alternate 5 (by decide)
  exact ⟨h.1 7, h.2.1 3, h.2.2 0 (by decide)⟩

/-- C7 (counterexample): for BREATH with `fade_duration = 1000` and poll
period 100 the period is 20 ticks, so the quarter-cycle tick is tick 5; the
brightness there is 61, not 100, and at the half-cycle tick 10 the brightness
is 100 rather than returning toward 0. -/
theorem C7_counterexample :
    percentAfter c7_breath_regs 0 5 ≠ 100 ∧
    percentAfter c7_breath_regs 0 5 = 61 ∧
    percentAfter c7_breath_regs 0 10 = 100 := by
  decide

set_option maxRecDepth 100000 in
/-- C7 (amended): brightness at tick 0 is 0, rises monotonically
(non-decreasing) to 100 by the half-cycle tick 10, returns to 0 by the
full-cycle tick 20, and the brightness sequence is periodic with period
2 * (ticks per fade duration) = 20. -/
theorem C7_amended :
    percentAfter c7_breath_regs 0 0 = 0 ∧
    ((List.range 10).all fun n =>
      decide (percentAfter c7_breath_regs 0 n ≤
              percentAfter c7_breath_regs 0 (n + 1))) = true ∧
    percentAfter c7_breath_regs 0 10 = 100 ∧
    percentAfter c7_breath_regs 0 20 = 0 ∧
    ∀ n, percentAfter c7_breath_regs 0 (n + 20) = percentAfter c7_breath_regs 0 n := by
  refine ⟨by decide, by decide, by decide, by decide, ?_⟩
  intro n
  have h20 : pollRegs 20 c7_breath_regs = some c7_breath_regs := by decide
  unfold percentAfter
  rw [Nat.add_comm n 20, pollRegs_add 20 n c7_breath_regs, h20]
  rfl

/-- C8: for every sequence of Initialize / Configure / RegisterExpiryCallback
/ tick-handler calls whose run is defined, every record's brightness stays
within [0, 100]. -/
theorem C8_brightness_bound (ops : List Op) (regs : List led_dev_t)
    (h : runOps ops = some regs) : ∀ d ∈ regs, d.stat.percent ≤ 100 :=
  runFrom_percent_le ops g_led_list regs h (by decide)

/-- Witness for `C8_brightness_bound` on a concrete defined run, specialized
to the record of slot 0. -/
theorem C8_witness :
    (((runOps c8_demo_ops).getD []).getD 0 zero_dev).stat.percent ≤ 100 := by
  have h := C8_brightness_bound c8_demo_ops ((runOps c8_demo_ops).getD [])
    (by decide)
  exact h _ (by decide)

/-- C9: `Initialize`, `Configure` and `ReadStatus` on an out-of-range
identifier all return the invalid-argument error and leave the registry
untouched. -/
theorem C9_out_of_range (regs : List led_dev_t) (id : Nat) (cb : Bool)
    (cfg : led_cfg_t) (h : LED_NUM ≤ id) :
    lite_led_init regs id cb = (regs, LED_ERROR_PARA_INVALID) ∧
    lite_led_write regs id cfg = (regs, LED_ERROR_PARA_INVALID) ∧
    lite_led_read regs id = (none, LED_ERROR_PARA_INVALID) := by
  refine ⟨?_, ?_, ?_⟩
  · simp [lite_led_init, h, LED_ERROR_PARA_INVALID]
  · simp [lite_led_write, show LED_MAX ≤ id from h]
  · simp [lite_led_read, h]

/-- Witness for `C9_out_of_range` at the concrete id `LED_NUM = 4`. -/
theorem C9_witness :
    lite_led_init g_led_list 4 true = (g_led_list, LED_ERROR_PARA_INVALID) ∧
    lite_led_write g_led_list 4 c5_blink_cfg = (g_led_list, LED_ERROR_PARA_INVALID) ∧
    lite_led_read g_led_list 4 = (none, LED_ERROR_PARA_INVALID) :=
  C9_out_of_range g_led_list 4 true c5_blink_cfg (by decide)

/-- C10: a nonzero `duration_ms` below the poll period truncates to a zero
lifetime tick count, so the resulting registry and error code are exactly the
same as for `duration_ms = 0` (the indefinite case), and the stored
`remain_tick` is 0. -/
theorem C10_subperiod_duration (regs : List led_dev_t) (id : Nat)
    (cfg : led_cfg_t) (d : Nat) (h1 : 0 < d) (h2 : d < LED_POLL_PERIOD_MS) :
    lite_led_write regs id { cfg with duration_ms := d } =
      lite_led_write regs id { cfg with duration_ms := 0 } ∧
    (written_dev (regs.getD id zero_dev)
        { cfg with duration_ms := d }).stat.remain_tick = 0 := by
  have hdiv : d / LED_POLL_PERIOD_MS = 0 := Nat.div_eq_of_lt h2
  constructor
  · simp only [lite_led_write, written_dev, fade_setup]
    simp [hdiv]
  · simp [written_dev, hdiv]

/-- Witness for `C10_subperiod_duration` at `d = 50`. -/
theorem C10_witness :
    lite_led_write g_led_list 0 { c5_blink_cfg with duration_ms := 50 } =
      lite_led_write g_led_list 0 { c5_blink_cfg with duration_ms := 0 } ∧
    (written_dev (g_led_list.getD 0 zero_dev)
        { c5_blink_cfg with duration_ms := 50 }).stat.remain_tick = 0 :=
  C10_subperiod_duration g_led_list 0 c5_blink_cfg 50 (by decide) (by decide)
